import Mathlib

/-!
Verification development for the OpenFactory AssetAPI repository.

The definitions below are a shallow embedding of the Python sources:

* `app/core/kafka_dispatcher.py` — the shared Kafka dispatcher
  (`KafkaDispatcher.start`) that fans messages out to subscriber queues;
* `app/core/kafka_consumer.py` — `poll_messages`, the per-connection
  key-filtered poll loop;
* `app/api/asset_stream.py` — the SSE endpoint `stream_asset_state`;
* `app/api/asset_state.py` — the snapshot endpoint `get_asset_state`;
* `routing_layer/app/core/controller/routing_controller.py` — the
  `RoutingController` lifecycle and readiness aggregation;
* `routing_layer/app/core/controller/deployment_platform.py` and
  `docker_deployment_platform.py` — group-name sanitization and service
  naming.

Machine-level effects (Kafka I/O, threads) are modelled by explicit state
passing: the dispatcher loop becomes a fold over the list of poll results,
the controller methods become traces of the platform calls they issue, and
fallible external calls become `Option`/`Except` values.
-/

/-! ## Bytes and UTF-8 decoding

Python `bytes.decode("utf-8")` raises on invalid input; we model byte
strings as `List Nat` and decoding as an `Option`-valued function that
rejects stray continuation bytes, overlong encodings, surrogates and
out-of-range code points, as the Python codec does. -/

/-- A byte string, each entry a value in `0..255`. -/
abbrev ByteStr := List Nat

/-- Is `b` a UTF-8 continuation byte (`0x80..0xBF`)? -/
def isContByte (b : Nat) : Bool := 0x80 ≤ b && b < 0xC0

/-- Strict UTF-8 decoding of a byte list into a list of characters.
Returns `none` exactly when Python `bytes.decode("utf-8")` raises. -/
def utf8DecodeChars : ByteStr → Option (List Char)
  | [] => some []
  | b1 :: rest =>
    if b1 < 0x80 then
      (utf8DecodeChars rest).map (fun cs => Char.ofNat b1 :: cs)
    else if b1 < 0xC2 then none
    else if b1 < 0xE0 then
      match rest with
      | b2 :: rest2 =>
        if isContByte b2 then
          (utf8DecodeChars rest2).map
            (fun cs => Char.ofNat ((b1 - 0xC0) * 64 + (b2 - 0x80)) :: cs)
        else none
      | [] => none
    else if b1 < 0xF0 then
      match rest with
      | b2 :: b3 :: rest3 =>
        if isContByte b2 && isContByte b3 then
          let cp := (b1 - 0xE0) * 4096 + (b2 - 0x80) * 64 + (b3 - 0x80)
          if cp < 0x800 then none
          else if 0xD800 ≤ cp && cp < 0xE000 then none
          else (utf8DecodeChars rest3).map (fun cs => Char.ofNat cp :: cs)
        else none
      | [b2] =>
        if isContByte b2 then none else none
      | [] => none
    else if b1 < 0xF5 then
      match rest with
      | b2 :: b3 :: b4 :: rest4 =>
        if isContByte b2 && isContByte b3 && isContByte b4 then
          let cp := (b1 - 0xF0) * 262144 + (b2 - 0x80) * 4096 +
                    (b3 - 0x80) * 64 + (b4 - 0x80)
          if cp < 0x10000 then none
          else if 0x10FFFF < cp then none
          else (utf8DecodeChars rest4).map (fun cs => Char.ofNat cp :: cs)
        else none
      | [b2, b3] =>
        if isContByte b2 && isContByte b3 then none else none
      | [b2] =>
        if isContByte b2 then none else none
      | [] => none
    else none

/-- Decode a byte string to a `String`, or `none` on invalid UTF-8. -/
def utf8Decode (bs : ByteStr) : Option String :=
  (utf8DecodeChars bs).map String.mk

/-- Encode an ASCII string as its list of byte values (used to build
concrete test messages; the sources only ever build keys from ASCII
asset identifiers). -/
def strBytes (s : String) : ByteStr := s.toList.map Char.toNat

/-! ## Kafka messages and the shared dispatcher

From `app/core/kafka_dispatcher.py`, `KafkaDispatcher.start`:

```python
while not self._stop_event.is_set():
    msg = self.consumer.poll(1.0)
    if msg is None or msg.error():
        continue
    try:
        asset_uuid = msg.key().decode("utf-8") if msg.key() else ""
        value = msg.value().decode("utf-8")
        queues = subscriptions.get(asset_uuid)
        if queues:
            for q in queues:
                asyncio.run_coroutine_threadsafe(q.put(value), self.loop)
            self.consumer.commit(message=msg, asynchronous=False)
    except Exception as e:
        print(f"[Kafka Dispatcher] Error: {e}")
```
-/

/-- A message as returned by `consumer.poll`: `key()` may be absent,
`value()` is raw bytes, `error()` marks a bus-level error object. -/
structure KafkaMessage where
  key : Option ByteStr
  value : ByteStr
  isError : Bool
deriving DecidableEq, Repr

/-- Source line `msg.key().decode("utf-8") if msg.key() else ""`: an absent (or empty,
which is falsy in Python) key yields `""`; present key bytes are decoded
and may fail.  `utf8Decode [] = some ""`, so the empty-bytes case needs no
special branch. -/
def decodeKey : Option ByteStr → Option String
  | none => some ""
  | some bs => utf8Decode bs

/-- The global subscription registry `subscriptions`: routing key to the
list of subscriber queues, each queue holding its enqueued payloads in
FIFO order. -/
abbrev Subscriptions := List (String × List (List String))

/-- Source `subscriptions.get(asset_uuid)`: `none` when the key is absent. -/
def lookupQueues (subs : Subscriptions) (k : String) : Option (List (List String)) :=
  match subs.find? (fun e => e.1 == k) with
  | some e => some e.2
  | none => none

/-- Source test `if queues:` — the snapshot under `k` is a non-empty list of queues. -/
def snapshotNonEmpty (subs : Subscriptions) (k : String) : Bool :=
  match lookupQueues subs k with
  | some qs => !qs.isEmpty
  | none => false

/-- Source loop `for q in queues: q.put(value)` — append the payload to every queue
registered under the routing key. -/
def enqueueAll (subs : Subscriptions) (k : String) (v : String) : Subscriptions :=
  subs.map (fun e => if e.1 == k then (e.1, e.2.map (fun q => q ++ [v])) else e)

/-- Outcome of processing one non-error message in the dispatcher loop. -/
structure DispatchStepResult where
  subs : Subscriptions
  committed : Bool
  errorLogged : Bool
deriving DecidableEq, Repr

/-- The body of the dispatcher's per-message `try` block: decode the key
and value (an exception lands in the `except` branch, which logs and
leaves all state unchanged), look up the subscriber snapshot, and when it
is non-empty enqueue to every queue and commit the offset. -/
def dispatchStep (subs : Subscriptions) (m : KafkaMessage) : DispatchStepResult :=
  match decodeKey m.key with
  | none => ⟨subs, false, true⟩
  | some assetUuid =>
    match utf8Decode m.value with
    | none => ⟨subs, false, true⟩
    | some value =>
      match lookupQueues subs assetUuid with
      | none => ⟨subs, false, false⟩
      | some queues =>
        if queues.isEmpty then ⟨subs, false, false⟩
        else ⟨enqueueAll subs assetUuid value, true, false⟩

/-- Result of running the dispatcher poll loop over a finite list of poll
results: final registry state, the list of committed messages in commit
order, and the number of logged per-message errors. -/
structure DispatchRunResult where
  subs : Subscriptions
  commits : List KafkaMessage
  errors : Nat
deriving DecidableEq, Repr

/-- The dispatcher poll loop over a finite schedule of poll results
(`none` models a poll timeout).  `None`/error messages are skipped by the
`continue`; every other message goes through `dispatchStep`. -/
def dispatchRun : List (Option KafkaMessage) → Subscriptions → DispatchRunResult
  | [], subs => ⟨subs, [], 0⟩
  | none :: rest, subs => dispatchRun rest subs
  | some m :: rest, subs =>
    if m.isError then dispatchRun rest subs
    else
      let st := dispatchStep subs m
      let r := dispatchRun rest st.subs
      ⟨r.subs, (if st.committed then [m] else []) ++ r.commits,
       (if st.errorLogged then 1 else 0) + r.errors⟩

example : utf8Decode (strBytes "A") = some "A" := by decide
example : utf8Decode [0xFF] = none := by decide
example : decodeKey (some []) = some "" := by decide

/-! ## Dispatcher lemmas -/

/-- Looking up the routing key after `enqueueAll` sees every queue with the
payload appended. -/
theorem lookupQueues_enqueueAll (subs : Subscriptions) (k : String) (v : String) :
    lookupQueues (enqueueAll subs k v) k =
      (lookupQueues subs k).map (fun qs => qs.map (fun q => q ++ [v])) := by
  induction subs with
  | nil => rfl
  | cons e rest ih =>
    by_cases h : e.1 = k
    · simp [enqueueAll, lookupQueues, List.find?, h]
    · have hbeq : (e.1 == k) = false := beq_false_of_ne h
      simpa [enqueueAll, lookupQueues, List.find?, hbeq] using ih

/-- A step that logs an error leaves the registry untouched and commits
nothing. -/
theorem dispatchStep_error_skips (subs : Subscriptions) (m : KafkaMessage)
    (h : (dispatchStep subs m).errorLogged = true) :
    (dispatchStep subs m).subs = subs ∧ (dispatchStep subs m).committed = false := by
  unfold dispatchStep at *
  cases hk : decodeKey m.key with
  | none => simp [hk]
  | some k =>
    cases hv : utf8Decode m.value with
    | none => simp [hk, hv]
    | some v =>
      simp only [hk, hv] at h
      cases hq : lookupQueues subs k with
      | none => simp [hk, hv, hq]
      | some qs =>
        simp only [hq] at h
        by_cases hqs : qs.isEmpty
        · simp [hk, hv, hq, hqs]
        · simp [hk, hv, hq, hqs] at h

/-- A decode failure of the key or the value is exactly what the
`except` branch catches: the step reports a logged error. -/
theorem dispatchStep_errorLogged_of_decode_fail (subs : Subscriptions)
    (m : KafkaMessage) (h : decodeKey m.key = none ∨ utf8Decode m.value = none) :
    (dispatchStep subs m).errorLogged = true := by
  unfold dispatchStep
  rcases h with h | h
  · simp [h]
  · cases hk : decodeKey m.key with
    | none => simp
    | some k => simp [h]

/-- C1 counterexample: a polled message that is not a bus-level error,
whose routing key `"A"` has a non-empty subscriber snapshot (one
registered queue), but whose value bytes `[0xFF]` are not valid UTF-8:
the dispatcher does not commit its offset, refuting the claimed
"commit iff snapshot non-empty" equivalence. -/
theorem dispatchStep_commit_iff_counterexample :
    (⟨some [0x41], [0xFF], false⟩ : KafkaMessage).isError = false ∧
    decodeKey (⟨some [0x41], [0xFF], false⟩ : KafkaMessage).key = some "A" ∧
    snapshotNonEmpty [("A", [[]])] "A" = true ∧
    (dispatchStep [("A", [[]])] ⟨some [0x41], [0xFF], false⟩).committed = false := by
  decide

/-- C1 (amended): for every polled non-error message whose key and value
decode successfully as UTF-8, the dispatcher commits the offset iff the
subscriber snapshot for its routing key is non-empty; when at least one
queue is registered under the key the payload is enqueued to every such
queue and the message is committed; when no queue is registered nothing
is committed and the registry is unchanged. -/
theorem dispatchStep_commit_iff (subs : Subscriptions) (m : KafkaMessage)
    (k v : String) (hm : m.isError = false)
    (hk : decodeKey m.key = some k) (hv : utf8Decode m.value = some v) :
    ((dispatchStep subs m).committed = true ↔ snapshotNonEmpty subs k = true) ∧
    (∀ qs, lookupQueues subs k = some qs → qs ≠ [] →
      (dispatchStep subs m).committed = true ∧
      lookupQueues (dispatchStep subs m).subs k =
        some (qs.map (fun q => q ++ [v]))) ∧
    (snapshotNonEmpty subs k = false →
      (dispatchStep subs m).committed = false ∧
      (dispatchStep subs m).subs = subs) ∧
    ((dispatchRun [some m] subs).commits =
      if snapshotNonEmpty subs k then [m] else []) := by
  cases hq : lookupQueues subs k with
  | none =>
    refine ⟨?_, ?_, ?_, ?_⟩ <;>
      simp [dispatchStep, dispatchRun, hk, hv, hq, hm, snapshotNonEmpty]
  | some qs =>
    by_cases hqs : qs.isEmpty
    · refine ⟨?_, ?_, ?_, ?_⟩ <;>
        simp_all [dispatchStep, dispatchRun, hk, hv, hq, hm, snapshotNonEmpty,
          List.isEmpty_iff]
    · have hne : qs ≠ [] := by simpa [List.isEmpty_iff] using hqs
      refine ⟨?_, ?_, ?_, ?_⟩
      · simp [dispatchStep, hk, hv, hq, hqs, snapshotNonEmpty, List.isEmpty_iff, hne]
      · intro qs' hqs' _
        have : qs' = qs := (Option.some_inj.mp hqs').symm
        subst this
        simp [dispatchStep, hk, hv, hq, hqs, lookupQueues_enqueueAll]
      · simp [snapshotNonEmpty, hq, List.isEmpty_iff, hne]
      · simp [dispatchRun, dispatchStep, hm, hk, hv, hq, hqs, snapshotNonEmpty,
          List.isEmpty_iff, hne]

/-- Witness for `dispatchStep_commit_iff` at a concrete registry with two
queues under key `"A"` and the message `key=b"A"`, `value=b"B"`. -/
theorem dispatchStep_commit_iff_witness :
    (dispatchStep [("A", [["p"], []])] ⟨some [0x41], [0x42], false⟩).committed = true ∧
    lookupQueues (dispatchStep [("A", [["p"], []])] ⟨some [0x41], [0x42], false⟩).subs "A" =
      some [["p", "B"], ["B"]] :=
  (dispatchStep_commit_iff [("A", [["p"], []])] ⟨some [0x41], [0x42], false⟩ "A" "B"
      (by decide) (by decide) (by decide)).2.1 [["p"], []] (by decide) (by decide)

/-- C7: a message whose per-message processing raises (undecodable key or
value) is logged and skipped — registry unchanged, nothing committed, the
error counter incremented — and the loop's behaviour on the remaining
poll schedule is exactly what it would have been without the faulty
message: no single-message fault terminates the loop. -/
theorem dispatchRun_fault_skipped (subs : Subscriptions) (m : KafkaMessage)
    (rest : List (Option KafkaMessage)) (hm : m.isError = false)
    (hfault : decodeKey m.key = none ∨ utf8Decode m.value = none) :
    (dispatchStep subs m).errorLogged = true ∧
    dispatchRun (some m :: rest) subs =
      ⟨(dispatchRun rest subs).subs, (dispatchRun rest subs).commits,
       1 + (dispatchRun rest subs).errors⟩ := by
  have hlog := dispatchStep_errorLogged_of_decode_fail subs m hfault
  obtain ⟨hsub, hcom⟩ := dispatchStep_error_skips subs m hlog
  refine ⟨hlog, ?_⟩
  simp [dispatchRun, hm, hsub, hcom, hlog]

/-- Witness for `dispatchRun_fault_skipped`: an undecodable value after
which the loop still processes the rest of the schedule. -/
theorem dispatchRun_fault_skipped_witness :
    (dispatchStep [("A", [["x"]])] ⟨some [0x41], [0xFF], false⟩).errorLogged = true ∧
    dispatchRun [some ⟨some [0x41], [0xFF], false⟩] [("A", [["x"]])] =
      ⟨(dispatchRun [] [("A", [["x"]])]).subs, (dispatchRun [] [("A", [["x"]])]).commits,
       1 + (dispatchRun [] [("A", [["x"]])]).errors⟩ :=
  dispatchRun_fault_skipped [("A", [["x"]])] ⟨some [0x41], [0xFF], false⟩ []
    (by decide) (Or.inr (by decide))

/-! ## The SSE connection's subscriber queue

From `app/api/asset_stream.py`, `stream_asset_state`:

```python
queue = asyncio.Queue()
```

`asyncio.Queue` semantics (Python standard library): the queue is created
with `maxsize=0` unless a positive maxsize is passed; "if maxsize is less
than or equal to zero, the queue size is infinite", and `put` suspends
only when the queue is full, i.e. when `0 < maxsize ≤ len(queue)`. -/

/-- An `asyncio.Queue` value: its `maxsize` and current contents. -/
structure AsyncQueue where
  maxsize : Nat
  contents : List String
deriving DecidableEq, Repr

/-- The `maxsize` of the queue built by `stream_asset_state`:
`asyncio.Queue()` is called with no argument, so the default `0`. -/
def sseQueueMaxsize : Nat := 0

/-- The subscriber queue of one SSE connection currently holding the
payloads `ps`, as created by `stream_asset_state`. -/
def sseSubscriberQueue (ps : List String) : AsyncQueue :=
  ⟨sseQueueMaxsize, ps⟩

/-- Semantics of `asyncio.Queue.full()`: true iff `0 < maxsize ≤ len(contents)`. -/
def queueFull (q : AsyncQueue) : Bool :=
  decide (0 < q.maxsize) && decide (q.maxsize ≤ q.contents.length)

/-- A `put` completes immediately exactly when the queue is not full. -/
def enqueueSucceedsImmediately (q : AsyncQueue) : Bool := !queueFull q

/-- C2 counterexample: the queue `stream_asset_state` creates, already
holding 1024 payloads, still accepts an enqueue immediately — it is not
a bounded queue of capacity 1024. -/
theorem sseQueue_bounded_counterexample :
    enqueueSucceedsImmediately (sseSubscriberQueue (List.replicate 1024 "p")) = true := by
  decide

/-- C2 (amended): the SubscriberQueue created for an SSE connection is
`asyncio.Queue()` with the default `maxsize = 0`, i.e. an *unbounded*
FIFO: whatever it currently holds, an enqueue succeeds immediately. -/
theorem sseQueue_unbounded (ps : List String) :
    sseQueueMaxsize = 0 ∧
    enqueueSucceedsImmediately (sseSubscriberQueue ps) = true := by
  constructor
  · rfl
  · simp [enqueueSucceedsImmediately, queueFull, sseSubscriberQueue, sseQueueMaxsize]

/-! ## The per-connection poll loop and the SSE filter

From `app/api/asset_stream.py`:

```python
key_prefix = f"{asset_uuid}|{id}" if id else f"{asset_uuid}|"
```

and from `app/core/kafka_consumer.py`, `poll_messages`:

```python
while True:
    msg = consumer.poll(timeout=1.0)
    if msg is None:
        continue
    if msg.error():
        continue
    try:
        key = msg.key().decode("utf-8") if msg.key() else ""
        if key.startswith(key_prefix):
            value = msg.value().decode("utf-8")
            yield value
    except Exception:
        continue
```

The SSE `event_generator` then emits each yielded payload verbatim as the
`data` of an `asset_update` event. -/

/-- Python `str.startswith` on code points. -/
def strStartsWith (s pat : String) : Bool := pat.toList.isPrefixOf s.toList

/-- The `key_prefix` computed by `stream_asset_state`.  Note Python's
`if id` is false for both `None` and the empty string. -/
def keyPat (assetUuid : String) (id : Option String) : String :=
  match id with
  | some i => if i = "" then assetUuid ++ "|" else assetUuid ++ "|" ++ i
  | none => assetUuid ++ "|"

/-- The generator `poll_messages` restricted to a finite poll schedule: the payloads it
yields, in order. -/
def poll_messages (pat : String) (polls : List (Option KafkaMessage)) : List String :=
  polls.filterMap (fun om =>
    match om with
    | none => none
    | some m =>
      if m.isError then none
      else
        match decodeKey m.key with
        | none => none
        | some key =>
          if strStartsWith key pat then utf8Decode m.value else none)

/-- The payloads emitted (verbatim) by the `/asset_stream` SSE endpoint
for the given query parameters over a finite poll schedule. -/
def sseEmitted (assetUuid : String) (id : Option String)
    (polls : List (Option KafkaMessage)) : List String :=
  poll_messages (keyPat assetUuid id) polls

/-! A minimal payload-side `id` reader, modelled from the spec's words
"decode the payload as JSON enough to read its `id` field": it is used
only to state the claim that the endpoint filters on the payload's `id`
field, which the code refutes. -/

/-- Drop characters up to and including the first occurrence of `marker`;
`none` if `marker` never occurs. -/
def dropThroughMarker (marker : List Char) : List Char → Option (List Char)
  | [] => if marker = [] then some [] else none
  | c :: cs =>
    if marker.isPrefixOf (c :: cs) then some ((c :: cs).drop marker.length)
    else dropThroughMarker marker cs

/-- Modelled from the spec: read the `id` field of a JSON payload — the
text between `"id":"` and the following quote; `none` when the payload
has no such field (e.g. is not JSON at all). -/
def jsonIdField (s : String) : Option String :=
  match dropThroughMarker "\"id\":\"".toList s.toList with
  | none => none
  | some rest => some (String.mk (rest.takeWhile (fun c => c ≠ '"')))

example : jsonIdField "\x7b\"id\":\"temp\",\"value\":\"1\"\x7d" = some "temp" := by decide
example : jsonIdField "hello" = none := by decide

/-- C3 counterexample: with filter `asset_uuid="A"`, `id="temp"`, a
message whose key `"A|temperature"` merely *starts with* the prefix
`"A|temp"` is emitted, although its payload's JSON `id` field is
`"temperature" ≠ "temp"`: the endpoint filters on the message key, never
on the payload's `id` field. -/
theorem sse_filter_counterexample :
    sseEmitted "A" (some "temp")
      [some ⟨some (strBytes "A|temperature"),
             strBytes "\x7b\"id\":\"temperature\"\x7d", false⟩] =
      ["\x7b\"id\":\"temperature\"\x7d"] ∧
    jsonIdField "\x7b\"id\":\"temperature\"\x7d" = some "temperature" ∧
    jsonIdField "\x7b\"id\":\"temperature\"\x7d" ≠ some "temp" := by
  decide

/-- C3 (amended): when the `id` query parameter is set (and non-empty),
the endpoint emits exactly those messages whose *key* starts with
`"{asset_uuid}|{id}"`, each payload emitted verbatim; the payload is
never decoded as JSON. -/
theorem sseEmitted_iff_key_match (assetUuid : String) (id : Option String)
    (polls : List (Option KafkaMessage)) (v : String) :
    v ∈ sseEmitted assetUuid id polls ↔
      ∃ m, some m ∈ polls ∧ m.isError = false ∧
        ∃ k, decodeKey m.key = some k ∧
          strStartsWith k (keyPat assetUuid id) = true ∧
          utf8Decode m.value = some v := by
  rw [sseEmitted, poll_messages, List.mem_filterMap]
  constructor
  · rintro ⟨om, hmem, hf⟩
    match om with
    | none => simp at hf
    | some m =>
      refine ⟨m, hmem, ?_⟩
      by_cases he : m.isError
      · simp [he] at hf
      · refine ⟨by simpa using he, ?_⟩
        cases hk : decodeKey m.key with
        | none => simp [he, hk] at hf
        | some k =>
          simp only [he, hk, if_false, Bool.false_eq_true] at hf
          by_cases hs : strStartsWith k (keyPat assetUuid id)
          · simp only [hs, if_true] at hf
            exact ⟨k, rfl, hs, hf⟩
          · simp [hs] at hf
  · rintro ⟨m, hmem, he, k, hk, hs, hv⟩
    exact ⟨some m, hmem, by simp [he, hk, hs, hv]⟩

/-- Witness for `sseEmitted_iff_key_match`: a concrete matching message is
emitted. -/
theorem sseEmitted_iff_key_match_witness :
    "P" ∈ sseEmitted "A" (some "t")
      [some ⟨some (strBytes "A|t1"), strBytes "P", false⟩] :=
  (sseEmitted_iff_key_match "A" (some "t") _ "P").mpr
    ⟨⟨some (strBytes "A|t1"), strBytes "P", false⟩, by simp, by decide,
     "A|t1", by decide, by decide, by decide⟩

/-! ## Group-name sanitization

From `routing_layer/app/core/controller/deployment_platform.py`
(`SwarmDeploymentPlatform._sanitize_group_name`) and, textually
identical, `docker_deployment_platform.py`
(`DockerDeploymentPlatform._sanitize_group_name`):

```python
sanitized = re.sub(r'[^a-z0-9]+', '-', group_name.lower())
return sanitized.strip('-')
```

and `_service_name`:

```python
return f"stream-api-group-{safe_name}"
```
-/

/-- Python `str.lower()` (ASCII case mapping). -/
def strToLower (s : String) : String := String.mk (s.toList.map Char.toLower)

/-- Does `c` match `[a-z0-9]`? -/
def isLowerAlnum (c : Char) : Bool := ('a' ≤ c && c ≤ 'z') || ('0' ≤ c && c ≤ '9')

/-- Semantics of the source call of re.sub: replace every maximal run of
non-`[a-z0-9]` characters by a single dash.  The boolean flag records
whether we are currently inside such a run (whose dash has already been
emitted). -/
def collapseRunsAux : Bool → List Char → List Char
  | _, [] => []
  | inRun, c :: cs =>
    if isLowerAlnum c then c :: collapseRunsAux false cs
    else if inRun then collapseRunsAux true cs
    else '-' :: collapseRunsAux true cs

/-- Replace each maximal non-alphanumeric run by `'-'`. -/
def collapseRuns (l : List Char) : List Char := collapseRunsAux false l

/-- Python strip of dashes: drop dashes from both ends. -/
def stripDashes (l : List Char) : List Char :=
  ((l.dropWhile (fun c => c == '-')).reverse.dropWhile (fun c => c == '-')).reverse

/-- The sanitizer `_sanitize_group_name` of both deployment platforms. -/
def sanitize_group_name (g : String) : String :=
  String.mk (stripDashes (collapseRuns (strToLower g).toList))

/-- The service name `_service_name` builds from a group name. -/
def service_name (g : String) : String :=
  "stream-api-group-" ++ sanitize_group_name g

example : sanitize_group_name "My Group!" = "my-group" := by decide
example : sanitize_group_name "--Wc__1--" = "wc-1" := by decide

/-- Every character emitted by `collapseRunsAux` is `[a-z0-9]` or a dash. -/
theorem mem_collapseRunsAux (c : Char) (l : List Char) :
    ∀ b, c ∈ collapseRunsAux b l → isLowerAlnum c = true ∨ c = '-' := by
  induction l with
  | nil => intro b h; simp [collapseRunsAux] at h
  | cons a as ih =>
    intro b h
    rw [collapseRunsAux] at h
    by_cases ha : isLowerAlnum a
    · rw [if_pos ha] at h
      rcases List.mem_cons.mp h with rfl | h
      · exact Or.inl ha
      · exact ih false h
    · rw [if_neg ha] at h
      cases b with
      | true => exact ih true (by simpa using h)
      | false =>
        rcases List.mem_cons.mp (by simpa using h) with rfl | h
        · exact Or.inr rfl
        · exact ih true h

/-- Membership is preserved backwards through `dropWhile`. -/
theorem mem_of_mem_dropWhile (p : Char → Bool) (c : Char) (l : List Char)
    (h : c ∈ l.dropWhile p) : c ∈ l := by
  induction l with
  | nil => simp at h
  | cons a as ih =>
    rw [List.dropWhile_cons] at h
    by_cases hp : p a
    · rw [if_pos hp] at h; exact List.mem_cons_of_mem _ (ih h)
    · rwa [if_neg hp] at h

/-- The head of a `dropWhile p` result does not satisfy `p`. -/
theorem head?_dropWhile_not (p : Char → Bool) (l : List Char) (c : Char)
    (h : (l.dropWhile p).head? = some c) : p c = false := by
  induction l with
  | nil => simp at h
  | cons a as ih =>
    rw [List.dropWhile_cons] at h
    by_cases hp : p a
    · rw [if_pos hp] at h; exact ih h
    · rw [if_neg hp] at h
      have : a = c := by simpa using h
      subst this
      exact Bool.eq_false_iff.mpr hp

/-- A dropWhile result is a suffix of the input. -/
theorem dropWhile_is_suffix (p : Char → Bool) (x : List Char) :
    ∃ t, t ++ x.dropWhile p = x := by
  induction x with
  | nil => exact ⟨[], rfl⟩
  | cons a as ih =>
    rw [List.dropWhile_cons]
    by_cases hpa : p a
    · rw [if_pos hpa]
      obtain ⟨t, ht⟩ := ih
      exact ⟨a :: t, by simp [ht]⟩
    · rw [if_neg hpa]
      exact ⟨[], rfl⟩

/-- Characters of `stripDashes l` come from `l`. -/
theorem mem_of_mem_stripDashes (c : Char) (l : List Char)
    (h : c ∈ stripDashes l) : c ∈ l := by
  rw [stripDashes, List.mem_reverse] at h
  have h2 := mem_of_mem_dropWhile _ _ _ h
  rw [List.mem_reverse] at h2
  exact mem_of_mem_dropWhile _ _ _ h2

/-- The result of `stripDashes` never ends in a dash. -/
theorem getLast?_stripDashes (l : List Char) (c : Char)
    (h : (stripDashes l).getLast? = some c) : c ≠ '-' := by
  rw [stripDashes, List.getLast?_reverse] at h
  have := head?_dropWhile_not _ _ _ h
  simpa using this

/-- The result of `stripDashes` never starts with a dash. -/
theorem head?_stripDashes (l : List Char) (c : Char)
    (h : (stripDashes l).head? = some c) : c ≠ '-' := by
  obtain ⟨t, ht⟩ :=
    dropWhile_is_suffix (fun c => c == '-') (l.dropWhile (fun c => c == '-')).reverse
  have hmk : stripDashes l ++ t.reverse = l.dropWhile (fun c => c == '-') := by
    rw [stripDashes]
    have := congrArg List.reverse ht
    simpa using this
  cases hsd : stripDashes l with
  | nil => rw [hsd] at h; simp at h
  | cons x xs =>
    rw [hsd] at h
    have hxc : x = c := by simpa using h
    subst hxc
    rw [hsd] at hmk
    have hhead : (l.dropWhile (fun c => c == '-')).head? = some x := by
      rw [← hmk]; rfl
    have := head?_dropWhile_not _ _ _ hhead
    simpa using this

/-- C8: for every group name, the sanitized form contains only
`[a-z0-9-]`, has no leading and no trailing dash, and any two group names
with equal sanitized forms yield equal service names
`stream-api-group-{sanitized}`. -/
theorem sanitize_group_name_spec (g : String) :
    (∀ c ∈ (sanitize_group_name g).toList, isLowerAlnum c = true ∨ c = '-') ∧
    (∀ c, (sanitize_group_name g).toList.head? = some c → c ≠ '-') ∧
    (∀ c, (sanitize_group_name g).toList.getLast? = some c → c ≠ '-') ∧
    (∀ g2, sanitize_group_name g = sanitize_group_name g2 →
      service_name g = service_name g2) := by
  have htl : (sanitize_group_name g).toList =
      stripDashes (collapseRuns (strToLower g).toList) := rfl
  refine ⟨?_, ?_, ?_, ?_⟩
  · intro c hc
    rw [htl] at hc
    exact mem_collapseRunsAux c _ false (mem_of_mem_stripDashes c _ hc)
  · intro c hc
    rw [htl] at hc
    exact head?_stripDashes _ c hc
  · intro c hc
    rw [htl] at hc
    exact getLast?_stripDashes _ c hc
  · intro g2 hsan
    rw [service_name, service_name, hsan]

/-- Witness for `sanitize_group_name_spec`: two distinct raw group names
with the same sanitized form get the same service name. -/
theorem sanitize_group_name_spec_witness :
    service_name "My Group!" = service_name "my_group" :=
  (sanitize_group_name_spec "My Group!").2.2.2 "my_group" (by decide)

/-! ## The Routing Controller lifecycle

From `routing_layer/app/core/controller/routing_controller.py`.  The
controller's methods are loops of calls to the grouping strategy and the
deployment platform; we model each method by the trace of those calls in
program order. -/

/-- One call the controller issues to its subcomponents. -/
inductive ControlEvent where
  | createStream (g : String)
  | deployService (g : String)
  | removeStream (g : String)
  | removeService (g : String)
  | getServiceUrl (g : String)
  | removeRoutingLayerApi
  | deployRoutingLayerApi
deriving DecidableEq, Repr

/-- Trace of `RoutingController.initialize`:

```python
for group in self.grouping_strategy.get_all_groups():
    self.grouping_strategy.create_derived_stream(group)
    self.deployment_platform.deploy_service(group)
```
-/
def initialize_trace : List String → List ControlEvent
  | [] => []
  | g :: rest =>
    ControlEvent.createStream g :: ControlEvent.deployService g :: initialize_trace rest

/-- Trace of `RoutingController.stop`:

```python
for group in self.grouping_strategy.get_all_groups():
    self.grouping_strategy.remove_derived_stream(group)
    self.deployment_platform.remove_service(group)
```
-/
def stop_trace : List String → List ControlEvent
  | [] => []
  | g :: rest =>
    ControlEvent.removeStream g :: ControlEvent.removeService g :: stop_trace rest

/-- Trace of `routing_layer/deployment/teardown.py` `main`: builds a controller
and calls exactly `controller.stop()`. -/
def teardown_main_trace (groups : List String) : List ControlEvent :=
  stop_trace groups

/-- Trace of `RoutingController.handle_client_request`, given the result of
`get_group_for_asset` (`none`, or a group name; Python's `if not group`
also treats the empty string as "no group"):

```python
if not group:
    return None
self.grouping_strategy.create_derived_stream(group)
self.deployment_platform.deploy_service(group)
return self.deployment_platform.get_service_url(group)
```
-/
def handle_client_request_trace : Option String → List ControlEvent
  | none => []
  | some g =>
    if g = "" then []
    else [ControlEvent.createStream g, ControlEvent.deployService g,
          ControlEvent.getServiceUrl g]

/-- No `deployService g` occurs before the first `createStream g`:
scanning left to right, the first of the two events to occur (if either
occurs) is `createStream g`. -/
def noServiceBeforeStream (g : String) : List ControlEvent → Bool
  | [] => true
  | e :: rest =>
    if e = ControlEvent.deployService g then false
    else if e = ControlEvent.createStream g then true
    else noServiceBeforeStream g rest

/-- The trace of `stop_trace` never mentions the routing-layer API. -/
theorem removeRoutingLayerApi_not_mem_stop_trace (groups : List String) :
    ControlEvent.removeRoutingLayerApi ∉ stop_trace groups := by
  induction groups with
  | nil => simp [stop_trace]
  | cons g rest ih => simp [stop_trace, ih]

/-- C5 counterexample: tearing down a one-group deployment issues exactly
the per-group removals and never calls `remove_routing_layer_api`. -/
theorem stop_symmetric_counterexample :
    teardown_main_trace ["wc1"] =
      [ControlEvent.removeStream "wc1", ControlEvent.removeService "wc1"] ∧
    ControlEvent.removeRoutingLayerApi ∉ teardown_main_trace ["wc1"] := by
  constructor
  · rfl
  · decide

/-- C5 (amended): teardown (`RoutingController.stop`, as run by
`teardown.py`) calls `remove_derived_stream` and `remove_service` for
every group returned by the grouping strategy, but never calls
`remove_routing_layer_api()`. -/
theorem stop_trace_spec (groups : List String) (g : String) (hg : g ∈ groups) :
    ControlEvent.removeStream g ∈ teardown_main_trace groups ∧
    ControlEvent.removeService g ∈ teardown_main_trace groups ∧
    ControlEvent.removeRoutingLayerApi ∉ teardown_main_trace groups := by
  refine ⟨?_, ?_, removeRoutingLayerApi_not_mem_stop_trace groups⟩
  · induction groups with
    | nil => simp at hg
    | cons a rest ih =>
      simp only [teardown_main_trace, stop_trace] at ih ⊢
      rcases List.mem_cons.mp hg with rfl | hmem
      · exact List.mem_cons_self _ _
      · exact List.mem_cons_of_mem _ (List.mem_cons_of_mem _ (ih hmem))
  · induction groups with
    | nil => simp at hg
    | cons a rest ih =>
      simp only [teardown_main_trace, stop_trace] at ih ⊢
      rcases List.mem_cons.mp hg with rfl | hmem
      · exact List.mem_cons_of_mem _ (List.mem_cons_self _ _)
      · exact List.mem_cons_of_mem _ (List.mem_cons_of_mem _ (ih hmem))

/-- Witness for `stop_trace_spec` on a concrete two-group deployment. -/
theorem stop_trace_spec_witness :
    ControlEvent.removeStream "wc2" ∈ teardown_main_trace ["wc1", "wc2"] ∧
    ControlEvent.removeService "wc2" ∈ teardown_main_trace ["wc1", "wc2"] ∧
    ControlEvent.removeRoutingLayerApi ∉ teardown_main_trace ["wc1", "wc2"] :=
  stop_trace_spec ["wc1", "wc2"] "wc2" (by decide)

/-- C6: in eager deployment (`initialize`) every group's derived stream
is created strictly before its worker service is deployed — the deploy
event exists in the trace and no `deployService g` precedes the first
`createStream g` — and lazy deployment (`handle_client_request`)
preserves the same ordering: its trace is either empty or exactly
create-stream, deploy-service, get-URL. -/
theorem topic_before_worker (groups : List String) (g : String)
    (r : Option String) (hg : g ∈ groups) :
    (noServiceBeforeStream g (initialize_trace groups) = true ∧
     ControlEvent.deployService g ∈ initialize_trace groups ∧
     ControlEvent.createStream g ∈ initialize_trace groups) ∧
    noServiceBeforeStream g (handle_client_request_trace r) = true ∧
    (handle_client_request_trace (some g) = [] ∨
     handle_client_request_trace (some g) =
       [ControlEvent.createStream g, ControlEvent.deployService g,
        ControlEvent.getServiceUrl g]) := by
  refine ⟨?_, ?_, ?_⟩
  · induction groups with
    | nil => simp at hg
    | cons a rest ih =>
      rcases List.mem_cons.mp hg with rfl | hmem
      · refine ⟨?_, ?_, ?_⟩ <;> simp [initialize_trace, noServiceBeforeStream]
      · by_cases hag : a = g
        · subst hag
          refine ⟨?_, ?_, ?_⟩ <;> simp [initialize_trace, noServiceBeforeStream]
        · obtain ⟨h1, h2, h3⟩ := ih hmem
          refine ⟨?_, ?_, ?_⟩ <;>
            simp [initialize_trace, noServiceBeforeStream, hag, h1, h2, h3]
  · match r with
    | none => rfl
    | some a =>
      by_cases ha : a = ""
      · simp [handle_client_request_trace, ha, noServiceBeforeStream]
      · by_cases hag : a = g
        · subst hag
          simp [handle_client_request_trace, ha, noServiceBeforeStream]
        · simp [handle_client_request_trace, ha, noServiceBeforeStream, hag]
  · by_cases hge : g = ""
    · exact Or.inl (by simp [handle_client_request_trace, hge])
    · exact Or.inr (by simp [handle_client_request_trace, hge])

/-- Witness for `topic_before_worker` at a concrete deployment. -/
theorem topic_before_worker_witness :
    (noServiceBeforeStream "wc1" (initialize_trace ["wc1", "wc2"]) = true ∧
     ControlEvent.deployService "wc1" ∈ initialize_trace ["wc1", "wc2"] ∧
     ControlEvent.createStream "wc1" ∈ initialize_trace ["wc1", "wc2"]) ∧
    noServiceBeforeStream "wc1" (handle_client_request_trace (some "wc1")) = true ∧
    (handle_client_request_trace (some "wc1") = [] ∨
     handle_client_request_trace (some "wc1") =
       [ControlEvent.createStream "wc1", ControlEvent.deployService "wc1",
        ControlEvent.getServiceUrl "wc1"]) :=
  topic_before_worker ["wc1", "wc2"] "wc1" (some "wc1") (by decide)

/-! ## Controller readiness aggregation

From `routing_layer/app/core/controller/routing_controller.py`,
`RoutingController.is_ready`:

```python
issues = {}
grouping_ready, grouping_msg = self.grouping_strategy.is_ready()
if not grouping_ready:
    issues["grouping_strategy"] = grouping_msg
deployment_ready, deployment_msg = self.deployment_platform.is_ready()
if not deployment_ready:
    issues["deployment_platform"] = deployment_msg
for group in self.grouping_strategy.get_all_groups():
    healthy, msg = self.deployment_platform.check_service_ready(group)
    if not healthy:
        issues[f"service:{group}"] = msg
return (len(issues) == 0, issues)
```

The two subcomponent calls are Python attribute lookups on the concrete
instances the repository constructs (`routing_layer/app/dependencies.py`
and `routing_layer/deployment/controller_factory.py`:
`UNSLevelGroupingStrategy` and `SwarmDeploymentPlatform`).  We model the
lookup against the method tables those classes actually define; a missing
attribute raises `AttributeError`. -/

/-- Methods defined on `UNSLevelGroupingStrategy`, together with those
inherited from `GroupingStrategy`
(`routing_layer/app/core/controller/grouping_strategy.py`). -/
def unsLevelGroupingStrategyMethods : List String :=
  ["__init__", "get_group_for_asset", "get_all_groups",
   "get_all_assets_in_group", "_get_stream_name",
   "create_derived_stream", "remove_derived_stream"]

/-- Methods defined on `SwarmDeploymentPlatform`, together with those
inherited from `DeploymentPlatform`
(`routing_layer/app/core/controller/deployment_platform.py`). -/
def swarmDeploymentPlatformMethods : List String :=
  ["__init__", "_sanitize_group_name", "_service_name", "deploy_service",
   "remove_service", "deploy_routing_layer_api", "remove_routing_layer_api",
   "get_service_url", "check_service_ready", "_get_host_port"]

/-- A state of the controller's subcomponents: the `(bool, str)` pairs the
readiness calls would return were the methods defined, the groups
enumerated by `get_all_groups` (which catches its own query errors and
returns `[]`), and the per-group result of `check_service_ready` (which
catches every exception internally and returns a `(bool, str)` pair). -/
structure ReadinessState where
  groupingReady : Bool × String
  deploymentReady : Bool × String
  groups : List String
  serviceReady : String → Bool × String

/-- Python attribute call: look the method name up in the class's method
table; a missing name raises `AttributeError`. -/
def callMethod (methods : List String) (name : String) (impl : Bool × String) :
    Except String (Bool × String) :=
  if name ∈ methods then Except.ok impl
  else Except.error ("AttributeError: " ++ name)

/-- Model of `RoutingController.is_ready` on the instances the repository
constructs, with exception propagation made explicit: the result is
either a raised exception or the `(ready, issues)` pair. -/
def routing_controller_is_ready (st : ReadinessState) :
    Except String (Bool × List (String × String)) := do
  let (gb, gm) ← callMethod unsLevelGroupingStrategyMethods "is_ready" st.groupingReady
  let (db, dm) ← callMethod swarmDeploymentPlatformMethods "is_ready" st.deploymentReady
  let issues1 : List (String × String) :=
    if gb then [] else [("grouping_strategy", gm)]
  let issues2 : List (String × String) :=
    if db then issues1 else issues1 ++ [("deployment_platform", dm)]
  let issues3 : List (String × String) :=
    issues2 ++ st.groups.filterMap (fun g =>
      match st.serviceReady g with
      | (true, _) => none
      | (false, msg) => some ("service:" ++ g, msg))
  pure (issues3.isEmpty, issues3)

/-- C4 (evaluating the code at the failing input): neither
`UNSLevelGroupingStrategy` nor `SwarmDeploymentPlatform` defines
`is_ready`, so `RoutingController.is_ready` raises `AttributeError` on
the very first subcomponent call — for *every* state of the
subcomponents — instead of reporting readiness failures in the `issues`
map. -/
theorem routing_controller_is_ready_raises (st : ReadinessState) :
    routing_controller_is_ready st =
      Except.error ("AttributeError: " ++ "is_ready") := by
  unfold routing_controller_is_ready callMethod
  rw [if_neg (by decide : ¬("is_ready" ∈ unsLevelGroupingStrategyMethods))]
  rfl

/-! ## The snapshot endpoint `/asset_state`

From `app/api/asset_state.py`, `get_asset_state`.  The endpoint issues
one of two fixed SELECT statements against the external ksqlDB `assets`
table — by composite key with `LIMIT 1` when `id` is given (and truthy:
Python's `if id` is false for `None` and for `""`), by `asset_uuid` with
`LIMIT 100` otherwise — and maps the outcome to a response:
`ksql.query` raising becomes HTTP 500, an empty dataframe becomes
HTTP 404, and otherwise the row data is returned with HTTP 200. -/

/-- A row of the `assets` ksqlDB table. -/
structure AssetRow where
  asset_uuid : String
  id : String
  value : String
  type : String
  tag : String
  timestamp : String
deriving DecidableEq, Repr

/-- The composite key `asset_uuid|id` the table is keyed by. -/
def rowKey (r : AssetRow) : String := r.asset_uuid ++ "|" ++ r.id

/-- The two SELECT statements `get_asset_state` can issue, with their
literal LIMIT clauses. -/
inductive AssetQuery where
  | byKey (key : String)
  | byAsset (assetUuid : String)
deriving DecidableEq, Repr

/-- Modelled from the spec: the external key/value projection (ksqlDB)
evaluating the endpoint's SELECT statements — filter the table by the
WHERE clause and apply the statement's LIMIT (1 for the composite-key
query, 100 for the per-asset query). -/
def runAssetQuery (table : List AssetRow) : AssetQuery → List AssetRow
  | .byKey k => (table.filter (fun r => rowKey r == k)).take 1
  | .byAsset a => (table.filter (fun r => r.asset_uuid == a)).take 100

/-- One entry of the `dataItems` list in the endpoint's response. -/
structure DataItemOut where
  id : String
  value : String
  type : String
  tag : String
  timestamp : String
deriving DecidableEq, Repr

/-- A `dataItems` entry built from a row. -/
def mkItem (r : AssetRow) : DataItemOut := ⟨r.id, r.value, r.type, r.tag, r.timestamp⟩

/-- The endpoint's possible responses. -/
inductive AssetStateResponse where
  | okSingle (asset_uuid id value type tag timestamp : String)
  | okList (asset_uuid : String) (dataItems : List DataItemOut)
  | notFound (detail : String)
  | upstreamError (detail : String)
deriving DecidableEq, Repr

/-- HTTP status of a response. -/
def statusCode : AssetStateResponse → Nat
  | .okSingle _ _ _ _ _ _ => 200
  | .okList _ _ => 200
  | .notFound _ => 404
  | .upstreamError _ => 500

/-- The `else` branch of `get_asset_state` (no truthy `id`): query all
DataItems of the asset. -/
def get_asset_state_all (qx : AssetQuery → Except String (List AssetRow))
    (asset_uuid : String) : AssetStateResponse :=
  match qx (AssetQuery.byAsset asset_uuid) with
  | Except.error e => AssetStateResponse.upstreamError ("ksqlDB query failed: " ++ e)
  | Except.ok [] => AssetStateResponse.notFound "No data found for the given asset_uuid."
  | Except.ok rows => AssetStateResponse.okList asset_uuid (rows.map mkItem)

/-- The endpoint `get_asset_state`, with the external `ksql.query` call abstracted as
an `Except`-valued oracle `qx` (`Except.error` models the call raising). -/
def get_asset_state (qx : AssetQuery → Except String (List AssetRow))
    (asset_uuid : String) (id : Option String) : AssetStateResponse :=
  match id with
  | some i =>
    if i = "" then get_asset_state_all qx asset_uuid
    else
      match qx (AssetQuery.byKey (asset_uuid ++ "|" ++ i)) with
      | Except.error e =>
          AssetStateResponse.upstreamError ("ksqlDB query failed: " ++ e)
      | Except.ok [] =>
          AssetStateResponse.notFound "No data found for the given asset_uuid and id."
      | Except.ok (row :: _) =>
          AssetStateResponse.okSingle row.asset_uuid row.id row.value
            row.type row.tag row.timestamp
  | none => get_asset_state_all qx asset_uuid

/-- The query `get_asset_state` issues for the given parameters. -/
def issuedQuery (asset_uuid : String) (id : Option String) : AssetQuery :=
  match id with
  | some i =>
    if i = "" then AssetQuery.byAsset asset_uuid
    else AssetQuery.byKey (asset_uuid ++ "|" ++ i)
  | none => AssetQuery.byAsset asset_uuid

/-- Status characterization for the all-items branch. -/
theorem get_asset_state_all_spec (qx : AssetQuery → Except String (List AssetRow))
    (a : String) :
    (statusCode (get_asset_state_all qx a) = 500 ↔
      ∃ e, qx (AssetQuery.byAsset a) = Except.error e) ∧
    (statusCode (get_asset_state_all qx a) = 404 ↔
      qx (AssetQuery.byAsset a) = Except.ok []) ∧
    (∀ r rest, qx (AssetQuery.byAsset a) = Except.ok (r :: rest) →
      get_asset_state_all qx a =
        AssetStateResponse.okList a ((r :: rest).map mkItem)) := by
  cases h : qx (AssetQuery.byAsset a) with
  | error e => simp [get_asset_state_all, h, statusCode]
  | ok rows =>
    cases rows with
    | nil => simp [get_asset_state_all, h, statusCode]
    | cons r rest =>
      refine ⟨?_, ?_, ?_⟩
      · simp [get_asset_state_all, h, statusCode]
      · simp [get_asset_state_all, h, statusCode]
      · intro r' rest' hr
        obtain ⟨rfl, rfl⟩ : r = r' ∧ rest = rest' := by
          have := Except.ok.inj hr
          exact ⟨(List.cons.inj this).1, (List.cons.inj this).2⟩
        simp [get_asset_state_all, h]

/-- C9: `GET /asset_state` answers 500 exactly when the projection query
raises, 404 exactly when the issued query returns no rows, and otherwise
200 with the row data (the first row's fields when a truthy `id` was
given, the mapped `dataItems` of all returned rows otherwise). -/
theorem get_asset_state_status_spec (qx : AssetQuery → Except String (List AssetRow))
    (a : String) (oid : Option String) :
    (statusCode (get_asset_state qx a oid) = 500 ↔
      ∃ e, qx (issuedQuery a oid) = Except.error e) ∧
    (statusCode (get_asset_state qx a oid) = 404 ↔
      qx (issuedQuery a oid) = Except.ok []) ∧
    (∀ r rest, qx (issuedQuery a oid) = Except.ok (r :: rest) →
      statusCode (get_asset_state qx a oid) = 200 ∧
      get_asset_state qx a oid =
        (match oid with
         | none => AssetStateResponse.okList a ((r :: rest).map mkItem)
         | some i =>
           if i = "" then AssetStateResponse.okList a ((r :: rest).map mkItem)
           else AssetStateResponse.okSingle r.asset_uuid r.id r.value
                  r.type r.tag r.timestamp)) := by
  match oid with
  | none =>
    obtain ⟨h1, h2, h3⟩ := get_asset_state_all_spec qx a
    refine ⟨h1, h2, ?_⟩
    intro r rest hr
    refine ⟨?_, h3 r rest hr⟩
    rw [show get_asset_state qx a none = get_asset_state_all qx a from rfl,
        h3 r rest hr]
    rfl
  | some i =>
    by_cases hi : i = ""
    · subst hi
      obtain ⟨h1, h2, h3⟩ := get_asset_state_all_spec qx a
      refine ⟨h1, h2, ?_⟩
      intro r rest hr
      refine ⟨?_, ?_⟩ <;>
        rw [show get_asset_state qx a (some "") = get_asset_state_all qx a from rfl,
            h3 r rest hr] <;> rfl
    · cases h : qx (AssetQuery.byKey (a ++ "|" ++ i)) with
      | error e =>
        refine ⟨?_, ?_, ?_⟩ <;>
          simp [get_asset_state, issuedQuery, hi, h, statusCode]
      | ok rows =>
        cases rows with
        | nil =>
          refine ⟨?_, ?_, ?_⟩ <;>
            simp [get_asset_state, issuedQuery, hi, h, statusCode]
        | cons r rest =>
          refine ⟨?_, ?_, ?_⟩
          · simp [get_asset_state, issuedQuery, hi, h, statusCode]
          · simp [get_asset_state, issuedQuery, hi, h, statusCode]
          · intro r' rest' hr
            rw [issuedQuery] at hr
            rw [if_neg hi] at hr
            rw [h] at hr
            obtain ⟨rfl, rfl⟩ : r = r' ∧ rest = rest' := by
              have := Except.ok.inj hr
              exact ⟨(List.cons.inj this).1, (List.cons.inj this).2⟩
            refine ⟨?_, ?_⟩ <;> simp [get_asset_state, hi, h, statusCode]

/-- Witness for `get_asset_state_status_spec`: the spec's scenario S1
row, returned with status 200 and the row's fields. -/
theorem get_asset_state_status_spec_witness :
    statusCode (get_asset_state
        (fun _ => Except.ok [⟨"WTVB01-001", "avail", "AVAILABLE", "Events",
          "Availability", "2025-07-10T19:31:50.117382Z"⟩])
        "WTVB01-001" (some "avail")) = 200 ∧
    get_asset_state
        (fun _ => Except.ok [⟨"WTVB01-001", "avail", "AVAILABLE", "Events",
          "Availability", "2025-07-10T19:31:50.117382Z"⟩])
        "WTVB01-001" (some "avail") =
      AssetStateResponse.okSingle "WTVB01-001" "avail" "AVAILABLE" "Events"
        "Availability" "2025-07-10T19:31:50.117382Z" := by
  have h := (get_asset_state_status_spec
      (fun _ => Except.ok [⟨"WTVB01-001", "avail", "AVAILABLE", "Events",
        "Availability", "2025-07-10T19:31:50.117382Z"⟩])
      "WTVB01-001" (some "avail")).2.2
      ⟨"WTVB01-001", "avail", "AVAILABLE", "Events",
        "Availability", "2025-07-10T19:31:50.117382Z"⟩ [] rfl
  simpa using h

/-- Extract the `dataItems` list of a response, when there is one. -/
def dataItemsOf : AssetStateResponse → Option (List DataItemOut)
  | AssetStateResponse.okList _ items => some items
  | _ => none

/-- C10: querying `/asset_state` without `id` issues the per-asset SELECT
with LIMIT 100, so the returned `dataItems` list has at most 100 entries,
and exactly 100 whenever the projection holds more than 100 rows for the
asset — the rows beyond the first 100 are silently omitted. -/
theorem get_asset_state_limit (table : List AssetRow) (a : String)
    (items : List DataItemOut)
    (h : dataItemsOf (get_asset_state
        (fun q => Except.ok (runAssetQuery table q)) a none) = some items) :
    items.length ≤ 100 ∧
    (100 < (table.filter (fun r => r.asset_uuid == a)).length →
      items.length = 100) := by
  have hq : runAssetQuery table (AssetQuery.byAsset a) =
      (table.filter (fun r => r.asset_uuid == a)).take 100 := rfl
  rw [show get_asset_state (fun q => Except.ok (runAssetQuery table q)) a none =
        get_asset_state_all (fun q => Except.ok (runAssetQuery table q)) a from rfl]
    at h
  rw [get_asset_state_all] at h
  cases hc : (table.filter (fun r => r.asset_uuid == a)).take 100 with
  | nil =>
    rw [hq, hc] at h
    simp [dataItemsOf] at h
  | cons r rest =>
    rw [hq, hc] at h
    simp only [dataItemsOf, Option.some_inj] at h
    subst h
    have hlen : (r :: rest).length =
        min 100 (table.filter (fun r => r.asset_uuid == a)).length := by
      rw [← hc, List.length_take]
    constructor
    · rw [List.length_map, hlen]
      exact Nat.min_le_left _ _
    · intro hgt
      rw [List.length_map, hlen]
      exact Nat.min_eq_left (Nat.le_of_lt hgt)

/-- A projection holding 101 rows for asset `"A"`. -/
def limitTable : List AssetRow :=
  List.replicate 101 ⟨"A", "i", "v", "t", "g", "ts"⟩

/-- Witness for `get_asset_state_limit`: on a 101-row projection the
endpoint returns exactly 100 `dataItems`. -/
theorem get_asset_state_limit_witness :
    (List.replicate 100 (⟨"i", "v", "t", "g", "ts"⟩ : DataItemOut)).length ≤ 100 ∧
    (100 < (limitTable.filter (fun r => r.asset_uuid == "A")).length →
      (List.replicate 100 (⟨"i", "v", "t", "g", "ts"⟩ : DataItemOut)).length = 100) :=
  get_asset_state_limit limitTable "A"
    (List.replicate 100 ⟨"i", "v", "t", "g", "ts"⟩) (by rfl)
